import Mathlib

/-!
Shallow embedding of `scaleway/helpers_instance.go` from the
`terraform-provider-scaleway` repository, together with proofs about the
helper functions it defines: the state-enum translation, the power-action
transition table (`reachState`), the volume-map helpers, the private-NIC
attach/detach workflow, the SDK wait wrappers and the reverse-DNS retry
loop.

Go `string`-backed SDK enums (`instance.ServerState`, `instance.ServerAction`,
`instance.VolumeServerState`, `instance.VolumeVolumeType`) are modelled as
`String` with the SDK constants as named definitions.  Go durations
(`time.Duration`, int64 nanoseconds) are modelled as `Nat` nanoseconds.
Pointer-typed fields (`*string`, `*scw.Size`, ...) become `Option`.
Go maps become association lists `List (String × α)`; a `Nodup` hypothesis on
the key list mirrors the uniqueness of Go map keys.  Fallible calls return
`Except String α`; SDK calls performed by the helpers are modelled by oracle
functions supplied as parameters, and the externally visible API calls made
by a helper are additionally reported as an explicit event trace.
-/

namespace Scaleway

/-- Terraform-side state string `InstanceServerStateStopped`. -/
def InstanceServerStateStopped : String := "stopped"

/-- Terraform-side state string `InstanceServerStateStarted`. -/
def InstanceServerStateStarted : String := "started"

/-- Terraform-side state string `InstanceServerStateStandby`. -/
def InstanceServerStateStandby : String := "standby"

/-- One second, in nanoseconds (Go `time.Second`). -/
def goSecond : Nat := 1000000000

/-- One minute, in nanoseconds (Go `time.Minute`). -/
def goMinute : Nat := 60 * goSecond

/-- Go `defaultInstanceServerWaitTimeout = 10 * time.Minute`. -/
def defaultInstanceServerWaitTimeout : Nat := 10 * goMinute

/-- Go `defaultInstanceRetryInterval = 5 * time.Second`. -/
def defaultInstanceRetryInterval : Nat := 5 * goSecond

/-- SDK enum value `instance.ServerStateRunning`. -/
def ServerStateRunning : String := "running"

/-- SDK enum value `instance.ServerStateStopped`. -/
def ServerStateStopped : String := "stopped"

/-- SDK enum value `instance.ServerStateStoppedInPlace`. -/
def ServerStateStoppedInPlace : String := "stopped in place"

/-- SDK enum value `instance.ServerStateStarting`. -/
def ServerStateStarting : String := "starting"

/-- SDK enum value `instance.ServerStateLocked`. -/
def ServerStateLocked : String := "locked"

/-- SDK enum value `instance.ServerActionPoweron`. -/
def ServerActionPoweron : String := "poweron"

/-- SDK enum value `instance.ServerActionPoweroff`. -/
def ServerActionPoweroff : String := "poweroff"

/-- SDK enum value `instance.ServerActionStopInPlace`. -/
def ServerActionStopInPlace : String := "stop_in_place"

/-- SDK enum value `instance.VolumeServerStateAvailable`. -/
def VolumeServerStateAvailable : String := "available"

/-- SDK enum value `instance.VolumeVolumeTypeLSSD` (`"l_ssd"`). -/
def VolumeVolumeTypeLSSD : String := "l_ssd"

/-- Go `serverStateFlatten` converts the API state to terraform state or returns
an error (switch on `instance.ServerState` with a default case). -/
def serverStateFlatten (fromState : String) : Except String String :=
  if fromState == ServerStateStopped then .ok InstanceServerStateStopped
  else if fromState == ServerStateStoppedInPlace then .ok InstanceServerStateStandby
  else if fromState == ServerStateRunning then .ok InstanceServerStateStarted
  else if fromState == ServerStateLocked then
    .error "server is locked, please contact Scaleway support: https://console.scaleway.com/support/tickets"
  else
    .error "server is in an invalid state, someone else might be executing action at the same time"

/-- Go `serverStateExpand` converts terraform state to an API state or returns an
error (lookup in a three-entry map literal). -/
def serverStateExpand (rawState : String) : Except String String :=
  match List.lookup rawState
      [(InstanceServerStateStopped, ServerStateStopped),
       (InstanceServerStateStandby, ServerStateStoppedInPlace),
       (InstanceServerStateStarted, ServerStateRunning)] with
  | some apiState => Except.ok apiState
  | none => Except.error "server is in a transient state, someone else might be executing another action at the same time"

/-- A server volume as seen on a server (`instance.VolumeServer`): the
fields this file reads. -/
structure VolumeServer where
  id : String
  name : String
  size : Nat
  state : String
  deriving Repr, DecidableEq

/-- The fields of `instance.Server` read by `reachState`. -/
structure Server where
  state : String
  volumes : List (String × VolumeServer)
  deriving Repr, DecidableEq

/-- The `transitionMap` literal inside `reachState`: ordered pairs of server
states mapped to the list of power actions that realize the transition. -/
def transitionMap (fromState toState : String) : Option (List String) :=
  if fromState == ServerStateStopped && toState == ServerStateRunning then
    some [ServerActionPoweron]
  else if fromState == ServerStateStopped && toState == ServerStateStoppedInPlace then
    some [ServerActionPoweron, ServerActionStopInPlace]
  else if fromState == ServerStateRunning && toState == ServerStateStopped then
    some [ServerActionPoweroff]
  else if fromState == ServerStateRunning && toState == ServerStateStoppedInPlace then
    some [ServerActionStopInPlace]
  else if fromState == ServerStateStoppedInPlace && toState == ServerStateRunning then
    some [ServerActionPoweron]
  else if fromState == ServerStateStoppedInPlace && toState == ServerStateStopped then
    some [ServerActionPoweron, ServerActionPoweroff]
  else none

/-- Oracle for the instance API calls made by `reachState`:
`GetServer`, `WaitForVolume` and `ServerActionAndWait`. -/
structure ReachEnv where
  getServer : Except String Server
  waitForVolume : String → Except String VolumeServer
  serverActionAndWait : String → Except String Unit

/-- The volume-readiness loop of `reachState`: volumes whose state is not
`available` are waited for, stopping at the first error. -/
def waitVolumes (env : ReachEnv) : List (String × VolumeServer) → Except String Unit
  | [] => Except.ok ()
  | (_, volume) :: rest =>
    if volume.state != VolumeServerStateAvailable then
      match env.waitForVolume volume.id with
      | Except.error e => Except.error e
      | Except.ok _ => waitVolumes env rest
    else waitVolumes env rest

/-- The action loop of `reachState`: run each action via
`ServerActionAndWait`, stopping at the first error.  Also returns the trace
of actions actually submitted. -/
def runActions (env : ReachEnv) : List String → Except String Unit × List String
  | [] => (Except.ok (), [])
  | a :: rest =>
    match env.serverActionAndWait a with
    | Except.error e => (Except.error e, [a])
    | Except.ok _ =>
      let r := runActions env rest
      (r.1, a :: r.2)

/-- Go `reachState`: fetch the server, return `nil` if already in the target
state, look up the transition table, wait for volumes, then run the actions.
The second component is the trace of power actions submitted to
`ServerActionAndWait`. -/
def reachState (env : ReachEnv) (serverID : String) (toState : String) :
    Except String Unit × List String :=
  match env.getServer with
  | Except.error e => (Except.error e, [])
  | Except.ok server =>
    let fromState := server.state
    if server.state == toState then (Except.ok (), [])
    else
      match transitionMap fromState toState with
      | none =>
        (Except.error ("don\x27t know how to reach state " ++ toState ++
          " from state " ++ fromState ++ " for server " ++ serverID), [])
      | some actions =>
        match waitVolumes env server.volumes with
        | Except.error e => (Except.error e, [])
        | Except.ok _ => runActions env actions

/-- A standalone volume (`instance.Volume`): the fields relevant here. -/
structure Volume where
  id : String
  name : String
  size : Nat
  state : String
  deriving Repr, DecidableEq

/-- The key list of a Go map modelled as an association list. -/
def mapKeys {α : Type} (v : List (String × α)) : List String :=
  v.map Prod.fst

/-- Go `orderVolumes`: collect the map keys, sort them as strings
(`sort.Strings`), and read the map back in that key order. -/
def orderVolumes (v : List (String × Volume)) : List Volume :=
  ((mapKeys v).mergeSort (fun a b => decide (a ≤ b))).filterMap
    (fun index => List.lookup index v)

/-- Go `sortVolumeServer`: same algorithm as `orderVolumes`, for
`instance.VolumeServer` values. -/
def sortVolumeServer (v : List (String × VolumeServer)) : List VolumeServer :=
  ((mapKeys v).mergeSort (fun a b => decide (a ≤ b))).filterMap
    (fun index => List.lookup index v)

/-- Go `instance.VolumeServerTemplate`: pointer fields become `Option`; the
zero value of the string-backed `VolumeVolumeType` is `""`. -/
structure VolumeServerTemplate where
  id : Option String := none
  name : Option String := none
  size : Option Nat := none
  volumeType : String := ""
  boot : Option Bool := none
  deriving Repr, DecidableEq

/-- Modulus of Go `uint64` (`scw.Size`): size arithmetic wraps at this
modulus. -/
def U64 : Nat := 18446744073709551616

/-- The local-volume total computed by `validateLocalVolumeSizes`: sum of
`*volume.Size` over volumes of type `l_ssd` with non-nil size, in `uint64`
arithmetic. -/
def localVolumeTotalSize (volumes : List (String × VolumeServerTemplate)) : Nat :=
  volumes.foldl
    (fun acc kv =>
      if kv.2.volumeType == VolumeVolumeTypeLSSD && kv.2.size.isSome then
        (acc + kv.2.size.getD 0) % U64
      else acc) 0

/-- Go `instance.VolumesConstraint` of a server type. -/
structure VolumesConstraint where
  minSize : Nat
  maxSize : Nat
  deriving Repr, DecidableEq

/-- The field of `instance.ServerType` read by this file. -/
structure ServerType where
  volumesConstraint : VolumesConstraint
  deriving Repr, DecidableEq

/-- The two error shapes of `validateLocalVolumeSizes`, keeping the
commercial type and the formatted bounds (byte formatting by
`humanize.Bytes` abstracted away). -/
inductive VolumeSizeError
  | equalTo (commercialType : String) (minSize : Nat)
  | between (commercialType : String) (minSize maxSize : Nat)
  deriving Repr, DecidableEq

/-- Go `validateLocalVolumeSizes` validates the total size of local volumes:
`none` means the Go function returned `nil`. -/
def validateLocalVolumeSizes (volumes : List (String × VolumeServerTemplate))
    (serverType : ServerType) (commercialType : String) : Option VolumeSizeError :=
  let volumeConstraint := serverType.volumesConstraint
  let total0 := localVolumeTotalSize volumes
  let total :=
    if (List.lookup "0" volumes).isNone then (total0 + volumeConstraint.minSize) % U64
    else total0
  if total < volumeConstraint.minSize || total > volumeConstraint.maxSize then
    if volumeConstraint.minSize == volumeConstraint.maxSize then
      some (.equalTo commercialType volumeConstraint.minSize)
    else
      some (.between commercialType volumeConstraint.minSize volumeConstraint.maxSize)
  else none

/-- The per-entry case split of `sanitizeVolumeMap`. -/
def sanitizeVolumeEntry (index : String) (v : VolumeServerTemplate) : VolumeServerTemplate :=
  if v.id.isSome then
    { id := v.id, name := v.name, boot := v.boot }
  else if index == "0" && v.size.isNone then
    { volumeType := v.volumeType, boot := v.boot }
  else v

/-- Go `sanitizeVolumeMap` removes extra data for API validation, rebuilding the
map entry by entry. -/
def sanitizeVolumeMap (volumes : List (String × VolumeServerTemplate)) :
    List (String × VolumeServerTemplate) :=
  volumes.map (fun kv => (kv.1, sanitizeVolumeEntry kv.1 kv.2))

/-- Modelled from the spec: `expandStringPtr` (a repository helper defined
outside this file, used for "resolving zone/region-qualified resource
identifiers" and raw resource data) converts a raw schema value to `*string`,
mapping both nil and the empty string to a nil pointer and any other string
to a pointer to it. -/
def expandStringPtr (data : Option String) : Option String :=
  match data with
  | none => none
  | some s => if s == "" then none else some s

/-- Modelled from the spec: `expandID` (a repository helper defined outside
this file, part of "resolving zone/region-qualified resource identifiers")
strips the locality prefix from a `locality/id` string and returns the input
unchanged when it is not of that form. -/
def expandID (s : String) : String :=
  match s.splitOn "/" with
  | [_, id] => id
  | _ => s

/-- An `instance.PrivateNIC`: the fields this file reads. -/
structure PrivateNIC where
  id : String
  privateNetworkID : String
  macAddress : String
  deriving Repr, DecidableEq

/-- The externally visible instance-API calls made by the private-NIC
attach/detach workflow. -/
inductive NICEvent
  | createPrivateNIC (privateNetworkID : String)
  | deletePrivateNIC (privateNicID : String)
  | waitPrivateNIC (privateNicID : String)
  | waitMACAddress (privateNicID : String)
  deriving Repr, DecidableEq

/-- Oracle for the instance API calls made by `privateNICsHandler.attach`
and `privateNICsHandler.detach`. -/
structure NICEnv where
  createPrivateNIC : String → Except String PrivateNIC
  waitForPrivateNIC : String → Except String PrivateNIC
  waitForMACAddress : String → Except String PrivateNIC
  deletePrivateNIC : String → Except String Unit

/-- The `privateNICsMap` of a `privateNICsHandler`: private network ID
mapped to the attached NIC. -/
def PrivateNICsMap : Type := List (String × PrivateNIC)

/-- Go `privateNICsHandler.detach`: if the old value is a non-empty string
whose private network is still attached, wait for the NIC then delete it.
Returns the result together with the trace of API calls. -/
def detach (ph : List (String × PrivateNIC)) (env : NICEnv) (o : Option String) :
    Except String Unit × List NICEvent :=
  match expandStringPtr o with
  | none => (Except.ok (), [])
  | some oStr =>
    if oStr.length > 0 then
      let idPN := expandID oStr
      match List.lookup idPN ph with
      | some p =>
        match env.waitForPrivateNIC (expandID p.id) with
        | Except.error e => (Except.error e, [NICEvent.waitPrivateNIC (expandID p.id)])
        | Except.ok _ =>
          match env.deletePrivateNIC (expandID p.id) with
          | Except.error e =>
            (Except.error e,
             [NICEvent.waitPrivateNIC (expandID p.id), NICEvent.deletePrivateNIC (expandID p.id)])
          | Except.ok _ =>
            (Except.ok (),
             [NICEvent.waitPrivateNIC (expandID p.id), NICEvent.deletePrivateNIC (expandID p.id)])
      | none => (Except.ok (), [])
    else (Except.ok (), [])

/-- Go `privateNICsHandler.attach`: if the new value is a string whose private
network is not yet attached, create the NIC then wait for it and for its MAC
address.  Returns the result together with the trace of API calls. -/
def attach (ph : List (String × PrivateNIC)) (env : NICEnv) (n : Option String) :
    Except String Unit × List NICEvent :=
  match expandStringPtr n with
  | none => (Except.ok (), [])
  | some nStr =>
    let privateNetworkID := expandID nStr
    match List.lookup privateNetworkID ph with
    | some _ => (Except.ok (), [])
    | none =>
      match env.createPrivateNIC privateNetworkID with
      | Except.error e => (Except.error e, [NICEvent.createPrivateNIC privateNetworkID])
      | Except.ok pn =>
        match env.waitForPrivateNIC pn.id with
        | Except.error e =>
          (Except.error e,
           [NICEvent.createPrivateNIC privateNetworkID, NICEvent.waitPrivateNIC pn.id])
        | Except.ok _ =>
          match env.waitForMACAddress pn.id with
          | Except.error e =>
            (Except.error e,
             [NICEvent.createPrivateNIC privateNetworkID, NICEvent.waitPrivateNIC pn.id,
              NICEvent.waitMACAddress pn.id])
          | Except.ok _ =>
            (Except.ok (),
             [NICEvent.createPrivateNIC privateNetworkID, NICEvent.waitPrivateNIC pn.id,
              NICEvent.waitMACAddress pn.id])

/-- The retry interval selected by every wait helper:
`DefaultWaitRetryInterval` (a nullable repository global, here a parameter)
when set, otherwise `defaultInstanceRetryInterval` (5 seconds). -/
def effectiveRetryInterval (defaultWaitRetryInterval : Option Nat) : Nat :=
  match defaultWaitRetryInterval with
  | some v => v
  | none => defaultInstanceRetryInterval

/-- Go `instance.WaitForSnapshotRequest` (fields set by this file). -/
structure WaitForSnapshotRequest where
  snapshotID : String
  zone : String
  timeout : Option Nat
  retryInterval : Option Nat
  deriving Repr, DecidableEq

/-- Go `instance.WaitForVolumeRequest` (fields set by this file). -/
structure WaitForVolumeRequest where
  volumeID : String
  zone : String
  timeout : Option Nat
  retryInterval : Option Nat
  deriving Repr, DecidableEq

/-- Go `instance.WaitForServerRequest` (fields set by this file). -/
structure WaitForServerRequest where
  serverID : String
  zone : String
  timeout : Option Nat
  retryInterval : Option Nat
  deriving Repr, DecidableEq

/-- Go `instance.WaitForPrivateNICRequest` (fields set by this file). -/
structure WaitForPrivateNICRequest where
  serverID : String
  privateNicID : String
  zone : String
  timeout : Option Nat
  retryInterval : Option Nat
  deriving Repr, DecidableEq

/-- Go `instance.WaitForMACAddressRequest` (fields set by this file). -/
structure WaitForMACAddressRequest where
  serverID : String
  privateNicID : String
  zone : String
  timeout : Option Nat
  retryInterval : Option Nat
  deriving Repr, DecidableEq

/-- Go `instance.WaitForImageRequest` (fields set by this file). -/
structure WaitForImageRequest where
  imageID : String
  zone : String
  timeout : Option Nat
  retryInterval : Option Nat
  deriving Repr, DecidableEq

/-- An `instance.Snapshot` (fields read here), with its base volume. -/
structure Snapshot where
  id : String
  baseVolumeName : String
  size : Nat
  volumeType : String
  deriving Repr, DecidableEq

/-- An `instance.Image` placeholder result type. -/
structure Image where
  id : String
  deriving Repr, DecidableEq

/-- Go `waitForInstanceSnapshot`: pick the retry interval, then call the SDK
`WaitForSnapshot` with the given timeout, returning its result pair
unchanged. -/
def waitForInstanceSnapshot
    (sdkWaitForSnapshot : WaitForSnapshotRequest → Snapshot × Option String)
    (defaultWaitRetryInterval : Option Nat)
    (zone id : String) (timeout : Nat) : Snapshot × Option String :=
  let retryInterval :=
    match defaultWaitRetryInterval with
    | some v => v
    | none => defaultInstanceRetryInterval
  sdkWaitForSnapshot
    { snapshotID := id, zone := zone, timeout := some timeout,
      retryInterval := some retryInterval }

/-- Go `waitForInstanceVolume`: pick the retry interval, then call the SDK
`WaitForVolume` with the given timeout, returning its result pair
unchanged. -/
def waitForInstanceVolume
    (sdkWaitForVolume : WaitForVolumeRequest → Volume × Option String)
    (defaultWaitRetryInterval : Option Nat)
    (zone id : String) (timeout : Nat) : Volume × Option String :=
  let retryInterval :=
    match defaultWaitRetryInterval with
    | some v => v
    | none => defaultInstanceRetryInterval
  sdkWaitForVolume
    { volumeID := id, zone := zone, timeout := some timeout,
      retryInterval := some retryInterval }

/-- Go `waitForInstanceServer`: pick the retry interval, then call the SDK
`WaitForServer` with the given timeout, returning its result pair
unchanged. -/
def waitForInstanceServer
    (sdkWaitForServer : WaitForServerRequest → Server × Option String)
    (defaultWaitRetryInterval : Option Nat)
    (zone id : String) (timeout : Nat) : Server × Option String :=
  let retryInterval :=
    match defaultWaitRetryInterval with
    | some v => v
    | none => defaultInstanceRetryInterval
  sdkWaitForServer
    { serverID := id, zone := zone, timeout := some timeout,
      retryInterval := some retryInterval }

/-- Go `waitForPrivateNIC`: pick the retry interval, then call the SDK
`WaitForPrivateNIC` with the given timeout, returning its result pair
unchanged. -/
def waitForPrivateNIC
    (sdkWaitForPrivateNIC : WaitForPrivateNICRequest → PrivateNIC × Option String)
    (defaultWaitRetryInterval : Option Nat)
    (zone serverID privateNICID : String) (timeout : Nat) : PrivateNIC × Option String :=
  let retryInterval :=
    match defaultWaitRetryInterval with
    | some v => v
    | none => defaultInstanceRetryInterval
  sdkWaitForPrivateNIC
    { serverID := serverID, privateNicID := privateNICID, zone := zone,
      timeout := some timeout, retryInterval := some retryInterval }

/-- Go `waitForMACAddress`: pick the retry interval, then call the SDK
`WaitForMACAddress` with the given timeout, returning its result pair
unchanged. -/
def waitForMACAddress
    (sdkWaitForMACAddress : WaitForMACAddressRequest → PrivateNIC × Option String)
    (defaultWaitRetryInterval : Option Nat)
    (zone serverID privateNICID : String) (timeout : Nat) : PrivateNIC × Option String :=
  let retryInterval :=
    match defaultWaitRetryInterval with
    | some v => v
    | none => defaultInstanceRetryInterval
  sdkWaitForMACAddress
    { serverID := serverID, privateNicID := privateNICID, zone := zone,
      timeout := some timeout, retryInterval := some retryInterval }

/-- Go `waitForInstanceImage`: pick the retry interval, then call the SDK
`WaitForImage` with the given timeout, returning its result pair
unchanged. -/
def waitForInstanceImage
    (sdkWaitForImage : WaitForImageRequest → Image × Option String)
    (defaultWaitRetryInterval : Option Nat)
    (zone id : String) (timeout : Nat) : Image × Option String :=
  let retryInterval :=
    match defaultWaitRetryInterval with
    | some v => v
    | none => defaultInstanceRetryInterval
  sdkWaitForImage
    { imageID := id, zone := zone, timeout := some timeout,
      retryInterval := some retryInterval }

/-- An `instance.GetSnapshotResponse` (the field read here). -/
structure GetSnapshotResponse where
  snapshot : Snapshot
  deriving Repr, DecidableEq

/-- An `instance.VolumeTemplate` (fields set by
`expandInstanceImageExtraVolumesTemplates`). -/
structure VolumeTemplate where
  id : String
  name : String
  size : Nat
  volumeType : String
  deriving Repr, DecidableEq

/-- Go `expandInstanceImageExtraVolumesTemplates`: starting from an empty map,
store the template built from the i-th snapshot at key `strconv.Itoa (i+1)`
(decimal, modelled by `Nat.repr`). -/
def expandInstanceImageExtraVolumesTemplates (snapshots : List GetSnapshotResponse) :
    List (String × VolumeTemplate) :=
  snapshots.enum.map (fun p =>
    (Nat.repr (p.1 + 1),
     { id := p.2.snapshot.id, name := p.2.snapshot.baseVolumeName,
       size := p.2.snapshot.size, volumeType := p.2.snapshot.volumeType }))

/-- A scw error as unwrapped by `errors.As`: an `InvalidArgumentsError`
carries its details (argument name and help message per detail); any error
may wrap another; everything else is opaque. -/
inductive SwError
  | invalidArguments (details : List (String × String))
  | wrapped (msg : String) (inner : SwError)
  | other (msg : String)
  deriving Repr, DecidableEq

/-- The `errors.As` search for an `*scw.InvalidArgumentsError` in the wrap
chain, returning its details when found. -/
def asInvalidArguments : SwError → Option (List (String × String))
  | SwError.invalidArguments details => some details
  | SwError.wrapped _ inner => asInvalidArguments inner
  | SwError.other _ => none

/-- Go `isIPReverseDNSResolveError`: the error unwraps to an
`InvalidArgumentsError` one of whose details has `ArgumentName == "reverse"`. -/
def isIPReverseDNSResolveError (err : SwError) : Bool :=
  match asInvalidArguments err with
  | none => false
  | some details => details.any (fun fields => fields.1 == "reverse")

/-- Go `retryUpdateReverseDNS`: the `select` loop modelled by fuel, where
`fuel` is the number of 5-second retry ticks that fire before the timeout
channel does, and `updateIP k` is the outcome (`none` = success) of the k-th
`UpdateIP` call.  With fuel left, a tick fires: call `UpdateIP`, retry only
on a reverse-DNS resolve error, otherwise return that outcome.  With no fuel
the timeout channel fires: one final `UpdateIP` call, whose error is
returned. -/
def retryUpdateReverseDNS (updateIP : Nat → Option SwError) :
    Nat → Nat → Option SwError
  | 0, k => updateIP k
  | fuel + 1, k =>
    match updateIP k with
    | some e =>
      if isIPReverseDNSResolveError e then retryUpdateReverseDNS updateIP fuel (k + 1)
      else some e
    | none => none

/-- Proof infrastructure: `localVolumeTotalSize` generalized over the fold
accumulator. -/
def localVolumeTotalSizeFrom (volumes : List (String × VolumeServerTemplate))
    (acc : Nat) : Nat :=
  volumes.foldl
    (fun acc kv =>
      if kv.2.volumeType == VolumeVolumeTypeLSSD && kv.2.size.isSome then
        (acc + kv.2.size.getD 0) % U64
      else acc) acc

/-- Following the spec words for C9: the mathematical (non-wrapping) sum of
the sizes of the volumes whose type is LSSD and whose size is non-nil,
generalized over the fold accumulator. -/
def specLSSDVolumeTotalFrom (volumes : List (String × VolumeServerTemplate))
    (acc : Nat) : Nat :=
  volumes.foldl
    (fun acc kv =>
      if kv.2.volumeType == VolumeVolumeTypeLSSD && kv.2.size.isSome then
        acc + kv.2.size.getD 0
      else acc) acc

/-- Following the spec words for C9: the mathematical sum of LSSD volume
sizes. -/
def specLSSDVolumeTotal (volumes : List (String × VolumeServerTemplate)) : Nat :=
  specLSSDVolumeTotalFrom volumes 0

/-- Following the spec words for C9: the claimed total — the LSSD size sum,
plus the minimum volume size of the server type when no volume is present at key
`"0"`. -/
def specClaimedLocalTotal (volumes : List (String × VolumeServerTemplate))
    (vc : VolumesConstraint) : Nat :=
  specLSSDVolumeTotal volumes +
    (if (List.lookup "0" volumes).isNone then vc.minSize else 0)

/-! ## Theorems -/

/-- Helper: `serverStateFlatten` errors exactly outside the three mapped
API states. -/
theorem serverStateFlatten_error_iff (s : String) :
    (∃ e, serverStateFlatten s = Except.error e) ↔
      ¬(s = ServerStateStopped ∨ s = ServerStateStoppedInPlace ∨ s = ServerStateRunning) := by
  unfold serverStateFlatten
  split_ifs with h1 h2 h3 h4 <;>
    simp_all [ServerStateStopped, ServerStateStoppedInPlace, ServerStateRunning]

/-- Helper: `serverStateExpand` errors exactly outside the three mapped
terraform states. -/
theorem serverStateExpand_error_iff (t : String) :
    (∃ e, serverStateExpand t = Except.error e) ↔
      ¬(t = InstanceServerStateStopped ∨ t = InstanceServerStateStandby ∨
        t = InstanceServerStateStarted) := by
  by_cases h1 : t = InstanceServerStateStopped
  · subst h1; simp [serverStateExpand, List.lookup]
  · by_cases h2 : t = InstanceServerStateStandby
    · subst h2
      simp [serverStateExpand, List.lookup, InstanceServerStateStandby,
        InstanceServerStateStopped]
    · by_cases h3 : t = InstanceServerStateStarted
      · subst h3
        simp [serverStateExpand, List.lookup, InstanceServerStateStarted,
          InstanceServerStateStopped, InstanceServerStateStandby]
      · have e1 : (t == InstanceServerStateStopped) = false := beq_eq_false_iff_ne.mpr h1
        have e2 : (t == InstanceServerStateStandby) = false := beq_eq_false_iff_ne.mpr h2
        have e3 : (t == InstanceServerStateStarted) = false := beq_eq_false_iff_ne.mpr h3
        simp only [InstanceServerStateStopped, InstanceServerStateStandby,
          InstanceServerStateStarted] at e1 e2 e3 h1 h2 h3
        simp [serverStateExpand, List.lookup, InstanceServerStateStopped,
          InstanceServerStateStandby, InstanceServerStateStarted, e1, e2, e3, h1, h2, h3]

/-- Claim C2: the state-enum translation is a round trip on the three mapped
states: composing `serverStateFlatten` then `serverStateExpand` is the
identity on `Stopped`, `StoppedInPlace` and `Running`, and composing
`serverStateExpand` then `serverStateFlatten` is the identity on
`"stopped"`, `"standby"` and `"started"`. -/
theorem serverState_round_trip :
    (serverStateFlatten ServerStateStopped).bind serverStateExpand =
        Except.ok ServerStateStopped ∧
    (serverStateFlatten ServerStateStoppedInPlace).bind serverStateExpand =
        Except.ok ServerStateStoppedInPlace ∧
    (serverStateFlatten ServerStateRunning).bind serverStateExpand =
        Except.ok ServerStateRunning ∧
    (serverStateExpand InstanceServerStateStopped).bind serverStateFlatten =
        Except.ok InstanceServerStateStopped ∧
    (serverStateExpand InstanceServerStateStandby).bind serverStateFlatten =
        Except.ok InstanceServerStateStandby ∧
    (serverStateExpand InstanceServerStateStarted).bind serverStateFlatten =
        Except.ok InstanceServerStateStarted :=
  ⟨rfl, rfl, rfl, rfl, rfl, rfl⟩

/-- Claim C4: `serverStateFlatten` returns an error iff the API state is not
one of `Stopped`, `StoppedInPlace`, `Running` (in particular `Locked` yields
an error), and `serverStateExpand` returns an error iff the terraform state
is not one of `"stopped"`, `"standby"`, `"started"`. -/
theorem serverState_error_conditions :
    ∀ s t : String,
      ((∃ e, serverStateFlatten s = Except.error e) ↔
        ¬(s = ServerStateStopped ∨ s = ServerStateStoppedInPlace ∨ s = ServerStateRunning)) ∧
      (∃ e, serverStateFlatten ServerStateLocked = Except.error e) ∧
      ((∃ e, serverStateExpand t = Except.error e) ↔
        ¬(t = InstanceServerStateStopped ∨ t = InstanceServerStateStandby ∨
          t = InstanceServerStateStarted)) := by
  intro s t
  refine ⟨serverStateFlatten_error_iff s, ?_, serverStateExpand_error_iff t⟩
  exact (serverStateFlatten_error_iff ServerStateLocked).mpr (by decide)

/-- Helper: when every `ServerActionAndWait` call succeeds, `runActions`
succeeds and its trace is exactly the requested action list, in order. -/
theorem runActions_all_ok (env : ReachEnv)
    (h : ∀ a, env.serverActionAndWait a = Except.ok ()) :
    ∀ actions, runActions env actions = (Except.ok (), actions) := by
  intro actions
  induction actions with
  | nil => rfl
  | cons a rest ih => simp [runActions, h a, ih]

/-- Claim C1: `reachState` performs no power action and returns `nil` when
the server is already in the target state; for a pair in the transition
table (exactly the six ordered pairs of distinct states among stopped,
running and stopped-in-place, with the listed actions) it submits the
actions of the table in order; and for any pair outside the table it returns an
error with no action performed. -/
theorem reachState_transition_table :
    ∀ (env : ReachEnv) (serverID toState : String) (server : Server),
      env.getServer = Except.ok server →
      (server.state = toState →
        reachState env serverID toState = (Except.ok (), [])) ∧
      (∀ actions, server.state ≠ toState →
        transitionMap server.state toState = some actions →
        waitVolumes env server.volumes = Except.ok () →
        (∀ a, env.serverActionAndWait a = Except.ok ()) →
        reachState env serverID toState = (Except.ok (), actions)) ∧
      (server.state ≠ toState → transitionMap server.state toState = none →
        ∃ e, reachState env serverID toState = (Except.error e, [])) ∧
      transitionMap ServerStateStopped ServerStateRunning = some [ServerActionPoweron] ∧
      transitionMap ServerStateStopped ServerStateStoppedInPlace =
        some [ServerActionPoweron, ServerActionStopInPlace] ∧
      transitionMap ServerStateRunning ServerStateStopped = some [ServerActionPoweroff] ∧
      transitionMap ServerStateRunning ServerStateStoppedInPlace =
        some [ServerActionStopInPlace] ∧
      transitionMap ServerStateStoppedInPlace ServerStateRunning =
        some [ServerActionPoweron] ∧
      transitionMap ServerStateStoppedInPlace ServerStateStopped =
        some [ServerActionPoweron, ServerActionPoweroff] ∧
      (∀ f t, (transitionMap f t).isSome = true →
        (f = ServerStateStopped ∨ f = ServerStateRunning ∨ f = ServerStateStoppedInPlace) ∧
        (t = ServerStateStopped ∨ t = ServerStateRunning ∨ t = ServerStateStoppedInPlace) ∧
        f ≠ t) := by
  intro env serverID toState server h
  refine ⟨?_, ?_, ?_, by decide, by decide, by decide, by decide, by decide, by decide, ?_⟩
  · intro hst
    simp [reachState, h, hst]
  · intro actions hne hact hwv hok
    simp [reachState, h, hne, hact, hwv, runActions_all_ok env hok actions]
  · intro hne hnone
    exact ⟨"don\x27t know how to reach state " ++ toState ++ " from state " ++
      server.state ++ " for server " ++ serverID, by simp [reachState, h, hne, hnone]⟩
  · intro f t hsome
    unfold transitionMap at hsome
    split_ifs at hsome <;>
      simp_all [ServerStateStopped, ServerStateRunning, ServerStateStoppedInPlace]

/-- Witness for C1: a server in state `stopped` driven to `running` under an
oracle whose actions all succeed submits exactly `poweron`. -/
theorem reachState_transition_table_witness :
    reachState
      ⟨Except.ok ⟨ServerStateStopped, []⟩, fun _ => Except.error "",
        fun _ => Except.ok ()⟩ "srv" ServerStateRunning =
      (Except.ok (), [ServerActionPoweron]) :=
  (reachState_transition_table
    ⟨Except.ok ⟨ServerStateStopped, []⟩, fun _ => Except.error "",
      fun _ => Except.ok ()⟩ "srv" ServerStateRunning
    ⟨ServerStateStopped, []⟩ rfl).2.1 [ServerActionPoweron]
    (by decide) (by decide) rfl (fun _ => rfl)

/-- Helper: looking up every key of an association list with `Nodup` keys
recovers exactly its values, in order. -/
theorem filterMap_lookup_mapKeys {α : Type} :
    ∀ (v : List (String × α)), (mapKeys v).Nodup →
      (mapKeys v).filterMap (fun k => List.lookup k v) = v.map Prod.snd := by
  intro v
  induction v with
  | nil => intro _; rfl
  | cons kv rest ih =>
    intro h
    obtain ⟨k₀, a₀⟩ := kv
    have hk₀ : k₀ ∉ mapKeys rest := (List.nodup_cons.mp (by simpa [mapKeys] using h)).1
    have hnd : (mapKeys rest).Nodup := (List.nodup_cons.mp (by simpa [mapKeys] using h)).2
    have hhead : List.lookup k₀ ((k₀, a₀) :: rest) = some a₀ := by
      simp [List.lookup]
    have hcong : ∀ k ∈ mapKeys rest,
        List.lookup k ((k₀, a₀) :: rest) = List.lookup k rest := by
      intro k hk
      have hne : k ≠ k₀ := fun he => hk₀ (he ▸ hk)
      simp [List.lookup, beq_eq_false_iff_ne.mpr hne]
    have : (mapKeys rest).filterMap (fun k => List.lookup k ((k₀, a₀) :: rest)) =
        (mapKeys rest).filterMap (fun k => List.lookup k rest) :=
      List.filterMap_congr hcong
    simp only [mapKeys, List.map_cons, List.filterMap_cons, hhead]
    simpa [mapKeys] using this.trans (ih hnd)

/-- Helper: transitivity of the boolean string comparison used by the sort. -/
theorem stringLeB_trans (a b c : String) (hab : decide (a ≤ b) = true)
    (hbc : decide (b ≤ c) = true) : decide (a ≤ c) = true :=
  decide_eq_true (le_trans (of_decide_eq_true hab) (of_decide_eq_true hbc))

/-- Helper: totality of the boolean string comparison used by the sort. -/
theorem stringLeB_total (a b : String) :
    (decide (a ≤ b) || decide (b ≤ a)) = true := by
  rcases le_total a b with h | h <;> simp [h]

/-- Claim C6: `orderVolumes` and `sortVolumeServer` each return exactly the
values of the map, one per key, arranged in the order of the keys of the map
sorted as strings; the result length is the size of the map and no value is duplicated or
dropped. -/
theorem orderVolumes_sortVolumeServer_sorted_values :
    ∀ (v : List (String × Volume)) (w : List (String × VolumeServer)),
      (mapKeys v).Nodup → (mapKeys w).Nodup →
      (orderVolumes v).Perm (v.map Prod.snd) ∧
      (orderVolumes v).length = v.length ∧
      orderVolumes v =
        ((mapKeys v).mergeSort (fun a b => decide (a ≤ b))).filterMap
          (fun k => List.lookup k v) ∧
      List.Sorted (· ≤ ·) ((mapKeys v).mergeSort (fun a b => decide (a ≤ b))) ∧
      ((mapKeys v).mergeSort (fun a b => decide (a ≤ b))).Perm (mapKeys v) ∧
      (sortVolumeServer w).Perm (w.map Prod.snd) ∧
      (sortVolumeServer w).length = w.length ∧
      sortVolumeServer w =
        ((mapKeys w).mergeSort (fun a b => decide (a ≤ b))).filterMap
          (fun k => List.lookup k w) ∧
      List.Sorted (· ≤ ·) ((mapKeys w).mergeSort (fun a b => decide (a ≤ b))) ∧
      ((mapKeys w).mergeSort (fun a b => decide (a ≤ b))).Perm (mapKeys w) := by
  intro v w hv hw
  have hpv : ((mapKeys v).mergeSort (fun a b => decide (a ≤ b))).Perm (mapKeys v) :=
    List.mergeSort_perm _ _
  have hpw : ((mapKeys w).mergeSort (fun a b => decide (a ≤ b))).Perm (mapKeys w) :=
    List.mergeSort_perm _ _
  have hov : (orderVolumes v).Perm (v.map Prod.snd) := by
    unfold orderVolumes
    exact (hpv.filterMap _).trans (filterMap_lookup_mapKeys v hv ▸ List.Perm.refl _)
  have how : (sortVolumeServer w).Perm (w.map Prod.snd) := by
    unfold sortVolumeServer
    exact (hpw.filterMap _).trans (filterMap_lookup_mapKeys w hw ▸ List.Perm.refl _)
  refine ⟨hov, by simpa using hov.length_eq, rfl, ?_, hpv, how,
    by simpa using how.length_eq, rfl, ?_, hpw⟩
  · exact (List.sorted_mergeSort stringLeB_trans stringLeB_total (mapKeys v)).imp
      (fun h => of_decide_eq_true h)
  · exact (List.sorted_mergeSort stringLeB_trans stringLeB_total (mapKeys w)).imp
      (fun h => of_decide_eq_true h)

/-- Witness for C6: a concrete two-volume map is returned as a permutation
of its values. -/
theorem orderVolumes_sortVolumeServer_witness :
    (orderVolumes [("1", ⟨"b", "vb", 2, "available"⟩), ("0", ⟨"a", "va", 1, "available"⟩)]).Perm
      [⟨"b", "vb", 2, "available"⟩, ⟨"a", "va", 1, "available"⟩] ∧
    (sortVolumeServer [("0", ⟨"a", "va", 1, "available"⟩)]).Perm
      [⟨"a", "va", 1, "available"⟩] := by
  have h := orderVolumes_sortVolumeServer_sorted_values
    [("1", ⟨"b", "vb", 2, "available"⟩), ("0", ⟨"a", "va", 1, "available"⟩)]
    [("0", ⟨"a", "va", 1, "available"⟩)] (by decide) (by decide)
  exact ⟨h.1, h.2.2.2.2.2.1⟩

/-- Claim C5: `sanitizeVolumeMap` keeps exactly the key set of the input and maps
each entry through the per-entry case split: an entry with a non-nil ID is
reduced to its ID, Name and Boot (VolumeType and Size dropped to their zero
values); the entry at key `"0"` with nil ID and nil Size is reduced to its
VolumeType and Boot; every other entry is kept unchanged. -/
theorem sanitizeVolumeMap_spec :
    ∀ volumes : List (String × VolumeServerTemplate),
      mapKeys (sanitizeVolumeMap volumes) = mapKeys volumes ∧
      sanitizeVolumeMap volumes =
        volumes.map (fun kv => (kv.1, sanitizeVolumeEntry kv.1 kv.2)) ∧
      (∀ k (v : VolumeServerTemplate), v.id.isSome →
        sanitizeVolumeEntry k v =
          { id := v.id, name := v.name, boot := v.boot, size := none, volumeType := "" }) ∧
      (∀ v : VolumeServerTemplate, v.id = none → v.size = none →
        sanitizeVolumeEntry "0" v =
          { volumeType := v.volumeType, boot := v.boot, id := none, name := none,
            size := none }) ∧
      (∀ k (v : VolumeServerTemplate), v.id = none → ¬(k = "0" ∧ v.size = none) →
        sanitizeVolumeEntry k v = v) := by
  intro volumes
  refine ⟨?_, rfl, ?_, ?_, ?_⟩
  · simp [mapKeys, sanitizeVolumeMap]
  · intro k v hid
    simp [sanitizeVolumeEntry, hid]
  · intro v hid hsize
    simp [sanitizeVolumeEntry, hid, hsize]
  · intro k v hid hk
    by_cases hk0 : k = "0"
    · have hsz : v.size ≠ none := fun hs => hk ⟨hk0, hs⟩
      have : v.size.isNone = false := by
        cases hsv : v.size with
        | none => exact absurd hsv hsz
        | some _ => rfl
      simp [sanitizeVolumeEntry, hid, hk0, this]
    · simp [sanitizeVolumeEntry, hid, hk0, beq_eq_false_iff_ne.mpr hk0]

/-- Witness for C5: a concrete three-entry map (one with an ID, a root
volume without ID or size, one untouched entry) is sanitized entrywise. -/
theorem sanitizeVolumeMap_witness :
    sanitizeVolumeEntry "1"
        ⟨some "vol-id", some "n", some 5, VolumeVolumeTypeLSSD, some true⟩ =
      ⟨some "vol-id", some "n", none, "", some true⟩ ∧
    sanitizeVolumeEntry "0" ⟨none, some "n", none, VolumeVolumeTypeLSSD, some true⟩ =
      ⟨none, none, none, VolumeVolumeTypeLSSD, some true⟩ ∧
    sanitizeVolumeEntry "2" ⟨none, some "n", some 7, VolumeVolumeTypeLSSD, none⟩ =
      ⟨none, some "n", some 7, VolumeVolumeTypeLSSD, none⟩ := by
  have h := sanitizeVolumeMap_spec
    [("1", ⟨some "vol-id", some "n", some 5, VolumeVolumeTypeLSSD, some true⟩)]
  refine ⟨h.2.2.1 "1" _ (by decide), ?_, ?_⟩
  · have h2 := h.2.2.2.1 ⟨none, some "n", none, VolumeVolumeTypeLSSD, some true⟩ rfl rfl
    simpa using h2
  · have h3 := h.2.2.2.2 "2" ⟨none, some "n", some 7, VolumeVolumeTypeLSSD, none⟩ rfl
      (by simp)
    simpa using h3

/-- Helper: characterization of one run of the retry loop, generalized over
the index of the first `UpdateIP` call. -/
theorem retryUpdateReverseDNS_aux (updateIP : Nat → Option SwError) :
    ∀ fuel k, ∃ j, j ≤ fuel ∧
      (∀ i, i < j → ∃ e, updateIP (k + i) = some e ∧ isIPReverseDNSResolveError e = true) ∧
      retryUpdateReverseDNS updateIP fuel k = updateIP (k + j) ∧
      (j < fuel → ¬∃ e, updateIP (k + j) = some e ∧ isIPReverseDNSResolveError e = true) := by
  intro fuel
  induction fuel with
  | zero =>
    intro k
    exact ⟨0, Nat.le_refl 0, fun i hi => absurd hi (Nat.not_lt_zero i),
      by simp [retryUpdateReverseDNS], fun h => absurd h (Nat.lt_irrefl 0)⟩
  | succ fuel ih =>
    intro k
    cases hu : updateIP k with
    | none =>
      refine ⟨0, Nat.zero_le _, fun i hi => absurd hi (Nat.not_lt_zero i), ?_, ?_⟩
      · simp [retryUpdateReverseDNS, hu]
      · intro _
        rintro ⟨e, he, _⟩
        simp [hu] at he
    | some e =>
      cases hres : isIPReverseDNSResolveError e with
      | false =>
        refine ⟨0, Nat.zero_le _, fun i hi => absurd hi (Nat.not_lt_zero i), ?_, ?_⟩
        · simp [retryUpdateReverseDNS, hu, hres]
        · intro _
          rintro ⟨e2, he2, hres2⟩
          rw [Nat.add_zero, hu] at he2
          cases he2
          exact absurd hres2 (by simp [hres])
      | true =>
        obtain ⟨j, hj, hretried, heq, hlast⟩ := ih (k + 1)
        refine ⟨j + 1, Nat.succ_le_succ hj, ?_, ?_, ?_⟩
        · intro i hi
          cases i with
          | zero => exact ⟨e, by simpa using hu, hres⟩
          | succ i =>
            have : i < j := Nat.lt_of_succ_lt_succ hi
            have h2 := hretried i this
            simpa [Nat.add_comm, Nat.add_assoc, Nat.add_left_comm] using h2
        · have : retryUpdateReverseDNS updateIP (fuel + 1) k =
              retryUpdateReverseDNS updateIP fuel (k + 1) := by
            simp [retryUpdateReverseDNS, hu, hres]
          rw [this, heq]
          congr 1
          omega
        · intro hlt
          have h2 := hlast (Nat.lt_of_succ_lt_succ hlt)
          intro hcontra
          apply h2
          obtain ⟨e2, he2, hr2⟩ := hcontra
          refine ⟨e2, ?_, hr2⟩
          rw [← he2]
          congr 1
          omega

/-- Claim C3: the retry loop calls `UpdateIP` on a fixed 5-second tick
(`defaultInstanceRetryInterval`), retries exactly while the outcome is an IP
reverse-DNS resolve error — an error that unwraps to an
`InvalidArgumentsError` having some detail whose ArgumentName is
`"reverse"` — returns any other outcome immediately, and once the timeout
tick count `fuel` is exhausted performs one final call and returns its
result.  `updateIP k` is the outcome of the k-th `UpdateIP` call. -/
theorem retryUpdateReverseDNS_spec :
    ∀ (updateIP : Nat → Option SwError) (fuel : Nat),
      (∃ j, j ≤ fuel ∧
        (∀ i, i < j →
          ∃ e, updateIP i = some e ∧ isIPReverseDNSResolveError e = true) ∧
        retryUpdateReverseDNS updateIP fuel 0 = updateIP j ∧
        (j < fuel →
          ¬∃ e, updateIP j = some e ∧ isIPReverseDNSResolveError e = true)) ∧
      (∀ err, isIPReverseDNSResolveError err = true ↔
        ∃ details, asInvalidArguments err = some details ∧
          ∃ d, d ∈ details ∧ d.1 = "reverse") ∧
      defaultInstanceRetryInterval = 5 * goSecond := by
  intro updateIP fuel
  refine ⟨?_, ?_, rfl⟩
  · obtain ⟨j, hj, hretried, heq, hlast⟩ := retryUpdateReverseDNS_aux updateIP fuel 0
    exact ⟨j, hj, fun i hi => by simpa using hretried i hi, by simpa using heq,
      fun h => by simpa using hlast h⟩
  · intro err
    unfold isIPReverseDNSResolveError
    cases h : asInvalidArguments err with
    | none => simp
    | some details =>
      simp only [List.any_eq_true, beq_iff_eq, Option.some.injEq]
      constructor
      · rintro ⟨d, hd, hname⟩
        exact ⟨details, rfl, d, hd, hname⟩
      · rintro ⟨details2, hdet, d, hd, hname⟩
        exact ⟨d, hdet ▸ hd, hname⟩

/-- Helper: a non-empty string has positive length. -/
theorem string_length_pos (s : String) (h : s ≠ "") : s.length > 0 := by
  rcases s with ⟨⟨⟩ | ⟨c, cs⟩⟩ <;> simp_all [String.length]

/-- Claim C7: `attach` creates a private NIC only when the given private
network ID is absent from the map held by the handler, doing nothing (no API call)
when it is already present or the input is nil; `detach` deletes a NIC only
when the old private network ID is present in that map, doing nothing when
it is absent or the input is nil or an empty string. -/
theorem attach_detach_only_when_needed :
    ∀ (ph : List (String × PrivateNIC)) (env : NICEnv) (n o : Option String),
      attach ph env none = (Except.ok (), []) ∧
      (∀ s, n = some s → (List.lookup (expandID s) ph).isSome = true →
        attach ph env n = (Except.ok (), [])) ∧
      (∀ ev pnID, ev ∈ (attach ph env n).2 → ev = NICEvent.createPrivateNIC pnID →
        ∃ s, n = some s ∧ s ≠ "" ∧ pnID = expandID s ∧
          List.lookup (expandID s) ph = none) ∧
      (∀ s, n = some s → s ≠ "" → List.lookup (expandID s) ph = none →
        (attach ph env n).2.head? = some (NICEvent.createPrivateNIC (expandID s))) ∧
      detach ph env none = (Except.ok (), []) ∧
      detach ph env (some "") = (Except.ok (), []) ∧
      (∀ s, o = some s → List.lookup (expandID s) ph = none →
        detach ph env o = (Except.ok (), [])) ∧
      (∀ ev nicID, ev ∈ (detach ph env o).2 → ev = NICEvent.deletePrivateNIC nicID →
        ∃ s p, o = some s ∧ s ≠ "" ∧ List.lookup (expandID s) ph = some p ∧
          nicID = expandID p.id) ∧
      (∀ s p, o = some s → s ≠ "" → List.lookup (expandID s) ph = some p →
        (∃ q, env.waitForPrivateNIC (expandID p.id) = Except.ok q) →
        (detach ph env o).2 = [NICEvent.waitPrivateNIC (expandID p.id),
          NICEvent.deletePrivateNIC (expandID p.id)]) := by
  intro ph env n o
  refine ⟨rfl, ?_, ?_, ?_, rfl, rfl, ?_, ?_, ?_⟩
  · intro s hn hsome
    subst hn
    by_cases hs : s = ""
    · simp [attach, expandStringPtr, hs]
    · have hbe : (s == "") = false := beq_eq_false_iff_ne.mpr hs
      cases hl : List.lookup (expandID s) ph with
      | none => rw [hl] at hsome; simp at hsome
      | some p => simp [attach, expandStringPtr, hbe, hl]
  · intro ev pnID hev hcreate
    subst hcreate
    cases n with
    | none => simp [attach, expandStringPtr] at hev
    | some s =>
      by_cases hs : s = ""
      · subst hs; simp [attach, expandStringPtr] at hev
      · have hbe : (s == "") = false := beq_eq_false_iff_ne.mpr hs
        cases hl : List.lookup (expandID s) ph with
        | some p => simp [attach, expandStringPtr, hbe, hl] at hev
        | none =>
          refine ⟨s, rfl, hs, ?_, hl⟩
          cases hc : env.createPrivateNIC (expandID s) with
          | error e =>
            simp [attach, expandStringPtr, hbe, hl, hc] at hev
            exact hev
          | ok pn =>
            cases hw : env.waitForPrivateNIC pn.id with
            | error e =>
              simp [attach, expandStringPtr, hbe, hl, hc, hw] at hev
              exact hev
            | ok q =>
              cases hm : env.waitForMACAddress pn.id with
              | error e =>
                simp [attach, expandStringPtr, hbe, hl, hc, hw, hm] at hev
                exact hev
              | ok r =>
                simp [attach, expandStringPtr, hbe, hl, hc, hw, hm] at hev
                exact hev
  · intro s hn hs hl
    subst hn
    have hbe : (s == "") = false := beq_eq_false_iff_ne.mpr hs
    cases hc : env.createPrivateNIC (expandID s) with
    | error e => simp [attach, expandStringPtr, hbe, hl, hc]
    | ok pn =>
      cases hw : env.waitForPrivateNIC pn.id with
      | error e => simp [attach, expandStringPtr, hbe, hl, hc, hw]
      | ok q =>
        cases hm : env.waitForMACAddress pn.id with
        | error e => simp [attach, expandStringPtr, hbe, hl, hc, hw, hm]
        | ok r => simp [attach, expandStringPtr, hbe, hl, hc, hw, hm]
  · intro s ho hl
    subst ho
    by_cases hs : s = ""
    · simp [detach, expandStringPtr, hs]
    · have hbe : (s == "") = false := beq_eq_false_iff_ne.mpr hs
      simp [detach, expandStringPtr, hbe, hl]
  · intro ev nicID hev hdelete
    subst hdelete
    cases o with
    | none => simp [detach, expandStringPtr] at hev
    | some s =>
      by_cases hs : s = ""
      · subst hs; simp [detach, expandStringPtr] at hev
      · have hbe : (s == "") = false := beq_eq_false_iff_ne.mpr hs
        cases hl : List.lookup (expandID s) ph with
        | none => simp [detach, expandStringPtr, hbe, hl] at hev
        | some p =>
          refine ⟨s, p, rfl, hs, hl, ?_⟩
          cases hw : env.waitForPrivateNIC (expandID p.id) with
          | error e =>
            simp [detach, expandStringPtr, hbe, hl, hw, string_length_pos s hs] at hev
          | ok q =>
            cases hd : env.deletePrivateNIC (expandID p.id) with
            | error e =>
              simp [detach, expandStringPtr, hbe, hl, hw, hd,
                string_length_pos s hs] at hev
              exact hev
            | ok u =>
              simp [detach, expandStringPtr, hbe, hl, hw, hd,
                string_length_pos s hs] at hev
              exact hev
  · intro s p ho hs hl hwok
    subst ho
    obtain ⟨q, hq⟩ := hwok
    have hbe : (s == "") = false := beq_eq_false_iff_ne.mpr hs
    cases hd : env.deletePrivateNIC (expandID p.id) with
    | error e => simp [detach, expandStringPtr, hbe, hl, hq, hd, string_length_pos s hs]
    | ok u => simp [detach, expandStringPtr, hbe, hl, hq, hd, string_length_pos s hs]

/-- Claim C8: every wait helper forwards the timeout of the caller unchanged to
the corresponding SDK wait call, uses `DefaultWaitRetryInterval` as retry
interval when it is set and the 5-second `defaultInstanceRetryInterval`
otherwise, and returns the result and error of the SDK call unchanged. -/
theorem waitHelpers_forward_unchanged :
    ∀ (dwri : Option Nat) (zone id serverID privateNICID : String) (timeout : Nat)
      (sdkSnap : WaitForSnapshotRequest → Snapshot × Option String)
      (sdkVol : WaitForVolumeRequest → Volume × Option String)
      (sdkSrv : WaitForServerRequest → Server × Option String)
      (sdkNIC : WaitForPrivateNICRequest → PrivateNIC × Option String)
      (sdkMAC : WaitForMACAddressRequest → PrivateNIC × Option String)
      (sdkImg : WaitForImageRequest → Image × Option String),
      waitForInstanceSnapshot sdkSnap dwri zone id timeout =
        sdkSnap { snapshotID := id, zone := zone, timeout := some timeout,
                  retryInterval := some (effectiveRetryInterval dwri) } ∧
      waitForInstanceVolume sdkVol dwri zone id timeout =
        sdkVol { volumeID := id, zone := zone, timeout := some timeout,
                 retryInterval := some (effectiveRetryInterval dwri) } ∧
      waitForInstanceServer sdkSrv dwri zone id timeout =
        sdkSrv { serverID := id, zone := zone, timeout := some timeout,
                 retryInterval := some (effectiveRetryInterval dwri) } ∧
      waitForPrivateNIC sdkNIC dwri zone serverID privateNICID timeout =
        sdkNIC { serverID := serverID, privateNicID := privateNICID, zone := zone,
                 timeout := some timeout,
                 retryInterval := some (effectiveRetryInterval dwri) } ∧
      waitForMACAddress sdkMAC dwri zone serverID privateNICID timeout =
        sdkMAC { serverID := serverID, privateNicID := privateNICID, zone := zone,
                 timeout := some timeout,
                 retryInterval := some (effectiveRetryInterval dwri) } ∧
      waitForInstanceImage sdkImg dwri zone id timeout =
        sdkImg { imageID := id, zone := zone, timeout := some timeout,
                 retryInterval := some (effectiveRetryInterval dwri) } ∧
      (dwri = none → effectiveRetryInterval dwri = defaultInstanceRetryInterval) ∧
      (∀ v, dwri = some v → effectiveRetryInterval dwri = v) ∧
      defaultInstanceRetryInterval = 5 * goSecond := by
  intro dwri zone id serverID privateNICID timeout sdkSnap sdkVol sdkSrv sdkNIC sdkMAC sdkImg
  cases dwri with
  | none =>
    refine ⟨rfl, rfl, rfl, rfl, rfl, rfl, fun _ => rfl, ?_, rfl⟩
    intro v hv
    cases hv
  | some v0 =>
    refine ⟨rfl, rfl, rfl, rfl, rfl, rfl, ?_, ?_, rfl⟩
    · intro h
      cases h
    · intro v hv
      cases hv
      rfl

/-- Helper: unfolding one step of the spec-side LSSD sum fold. -/
theorem specFrom_cons (kv : String × VolumeServerTemplate)
    (rest : List (String × VolumeServerTemplate)) (acc : Nat) :
    specLSSDVolumeTotalFrom (kv :: rest) acc =
      specLSSDVolumeTotalFrom rest
        (if kv.2.volumeType == VolumeVolumeTypeLSSD && kv.2.size.isSome then
          acc + kv.2.size.getD 0
        else acc) := rfl

/-- Helper: unfolding one step of the wrapping volume-size fold. -/
theorem localFrom_cons (kv : String × VolumeServerTemplate)
    (rest : List (String × VolumeServerTemplate)) (acc : Nat) :
    localVolumeTotalSizeFrom (kv :: rest) acc =
      localVolumeTotalSizeFrom rest
        (if kv.2.volumeType == VolumeVolumeTypeLSSD && kv.2.size.isSome then
          (acc + kv.2.size.getD 0) % U64
        else acc) := rfl

/-- Helper: the accumulator of the spec-side LSSD sum splits off. -/
theorem specLSSDVolumeTotalFrom_acc :
    ∀ (volumes : List (String × VolumeServerTemplate)) (acc : Nat),
      specLSSDVolumeTotalFrom volumes acc = acc + specLSSDVolumeTotal volumes := by
  intro volumes
  induction volumes with
  | nil => intro acc; simp [specLSSDVolumeTotalFrom, specLSSDVolumeTotal]
  | cons kv rest ih =>
    intro acc
    simp only [specLSSDVolumeTotal, specFrom_cons]
    by_cases hP : (kv.2.volumeType == VolumeVolumeTypeLSSD && kv.2.size.isSome) = true
    · rw [if_pos hP, if_pos hP, ih (acc + kv.2.size.getD 0), ih (0 + kv.2.size.getD 0)]
      omega
    · rw [if_neg hP, if_neg hP, ih acc, ih 0]
      omega

/-- Helper: a cons step of the spec-side total, nonrecursively. -/
theorem specLSSDVolumeTotal_cons (kv : String × VolumeServerTemplate)
    (rest : List (String × VolumeServerTemplate)) :
    specLSSDVolumeTotal (kv :: rest) =
      (if kv.2.volumeType == VolumeVolumeTypeLSSD && kv.2.size.isSome then
        kv.2.size.getD 0
      else 0) + specLSSDVolumeTotal rest := by
  simp only [specLSSDVolumeTotal, specFrom_cons]
  by_cases hP : (kv.2.volumeType == VolumeVolumeTypeLSSD && kv.2.size.isSome) = true
  · rw [if_pos hP, if_pos hP, specLSSDVolumeTotalFrom_acc rest (0 + kv.2.size.getD 0),
      specLSSDVolumeTotalFrom_acc rest 0]
    omega
  · rw [if_neg hP, if_neg hP]
    simp [specLSSDVolumeTotal]

/-- Helper: when the mathematical sum does not overflow `uint64`, the
wrapping fold of `localVolumeTotalSize` computes it exactly. -/
theorem localVolumeTotalSizeFrom_eq_spec :
    ∀ (volumes : List (String × VolumeServerTemplate)) (acc : Nat),
      acc + specLSSDVolumeTotal volumes < U64 →
      localVolumeTotalSizeFrom volumes acc = specLSSDVolumeTotalFrom volumes acc := by
  intro volumes
  induction volumes with
  | nil => intro acc _; rfl
  | cons kv rest ih =>
    intro acc hov
    rw [specLSSDVolumeTotal_cons] at hov
    rw [localFrom_cons, specFrom_cons]
    by_cases hP : (kv.2.volumeType == VolumeVolumeTypeLSSD && kv.2.size.isSome) = true
    · rw [if_pos hP] at hov
      rw [if_pos hP, if_pos hP]
      have hsz : acc + kv.2.size.getD 0 < U64 := by omega
      rw [Nat.mod_eq_of_lt hsz]
      exact ih (acc + kv.2.size.getD 0) (by omega)
    · rw [if_neg hP] at hov
      rw [if_neg hP, if_neg hP]
      exact ih acc (by omega)

/-- Helper: without overflow, `localVolumeTotalSize` equals the spec-side
mathematical sum. -/
theorem localVolumeTotalSize_eq_spec (volumes : List (String × VolumeServerTemplate))
    (h : specLSSDVolumeTotal volumes < U64) :
    localVolumeTotalSize volumes = specLSSDVolumeTotal volumes := by
  have h2 := localVolumeTotalSizeFrom_eq_spec volumes 0 (by omega)
  have h3 : localVolumeTotalSize volumes = localVolumeTotalSizeFrom volumes 0 := rfl
  rw [h3, h2]
  rfl

/-- Claim C9: `validateLocalVolumeSizes` returns `nil` iff the sum of the
sizes of the LSSD volumes with non-nil size — plus the minimum
volume size when no volume is present at key `"0"` — lies within the
inclusive `[MinSize, MaxSize]` volume constraint; otherwise it returns an
error naming the commercial type, with the "equal to" shape when
`MinSize = MaxSize` and the "between" shape otherwise.  (Sizes are `uint64`;
the hypothesis rules out wrap-around of the total.) -/
theorem validateLocalVolumeSizes_iff :
    ∀ (volumes : List (String × VolumeServerTemplate)) (serverType : ServerType)
      (commercialType : String),
      specClaimedLocalTotal volumes serverType.volumesConstraint < U64 →
      ((validateLocalVolumeSizes volumes serverType commercialType = none) ↔
        (serverType.volumesConstraint.minSize ≤
            specClaimedLocalTotal volumes serverType.volumesConstraint ∧
          specClaimedLocalTotal volumes serverType.volumesConstraint ≤
            serverType.volumesConstraint.maxSize)) ∧
      (∀ e, validateLocalVolumeSizes volumes serverType commercialType = some e →
        (serverType.volumesConstraint.minSize = serverType.volumesConstraint.maxSize →
          e = VolumeSizeError.equalTo commercialType
            serverType.volumesConstraint.minSize) ∧
        (serverType.volumesConstraint.minSize ≠ serverType.volumesConstraint.maxSize →
          e = VolumeSizeError.between commercialType
            serverType.volumesConstraint.minSize
            serverType.volumesConstraint.maxSize)) := by
  intro volumes serverType commercialType hov
  have hsp : specLSSDVolumeTotal volumes < U64 := by
    cases h0 : (List.lookup "0" volumes).isNone <;>
      simp [specClaimedLocalTotal, h0] at hov <;> omega
  have hwrap := localVolumeTotalSize_eq_spec volumes hsp
  have htot :
      (if (List.lookup "0" volumes).isNone then
        (localVolumeTotalSize volumes + serverType.volumesConstraint.minSize) % U64
      else localVolumeTotalSize volumes) =
        specClaimedLocalTotal volumes serverType.volumesConstraint := by
    cases h0 : (List.lookup "0" volumes).isNone with
    | true =>
      have hlt : specLSSDVolumeTotal volumes + serverType.volumesConstraint.minSize <
          U64 := by
        simp [specClaimedLocalTotal, h0] at hov
        omega
      simp [specClaimedLocalTotal, h0, hwrap, Nat.mod_eq_of_lt hlt]
    | false => simp [specClaimedLocalTotal, h0, hwrap]
  constructor
  · constructor
    · intro hnone
      simp only [validateLocalVolumeSizes, htot] at hnone
      by_cases h1 :
          (decide (specClaimedLocalTotal volumes serverType.volumesConstraint <
              serverType.volumesConstraint.minSize) ||
            decide (specClaimedLocalTotal volumes serverType.volumesConstraint >
              serverType.volumesConstraint.maxSize)) = true
      · rw [if_pos h1] at hnone
        exact absurd hnone (by split_ifs <;> simp)
      · simp only [Bool.or_eq_true, decide_eq_true_eq, not_or, not_lt, gt_iff_lt] at h1
        exact ⟨h1.1, h1.2⟩
    · intro hrange
      simp only [validateLocalVolumeSizes, htot]
      have hcond :
          (decide (specClaimedLocalTotal volumes serverType.volumesConstraint <
              serverType.volumesConstraint.minSize) ||
            decide (specClaimedLocalTotal volumes serverType.volumesConstraint >
              serverType.volumesConstraint.maxSize)) = false := by
        simp only [Bool.or_eq_false_iff, decide_eq_false_iff_not, not_lt, gt_iff_lt]
        omega
      simp [hcond]
  · intro e he
    simp only [validateLocalVolumeSizes, htot] at he
    by_cases h1 :
        (decide (specClaimedLocalTotal volumes serverType.volumesConstraint <
            serverType.volumesConstraint.minSize) ||
          decide (specClaimedLocalTotal volumes serverType.volumesConstraint >
            serverType.volumesConstraint.maxSize)) = true
    · rw [if_pos h1] at he
      by_cases h2 : (serverType.volumesConstraint.minSize ==
          serverType.volumesConstraint.maxSize) = true
      · rw [if_pos h2] at he
        have hmm : serverType.volumesConstraint.minSize =
            serverType.volumesConstraint.maxSize := by simpa using h2
        cases he
        exact ⟨fun _ => rfl, fun hne => absurd hmm hne⟩
      · rw [if_neg h2] at he
        have hmm : ¬(serverType.volumesConstraint.minSize =
            serverType.volumesConstraint.maxSize) := by simpa using h2
        cases he
        exact ⟨fun h => absurd h hmm, fun _ => rfl⟩
    · rw [if_neg h1] at he
      exact Option.noConfusion he

/-- Witness for C9: a DEV1-S-like server type with [5, 10] constraint and a
single 5-byte LSSD root volume validates to `nil`. -/
theorem validateLocalVolumeSizes_witness :
    validateLocalVolumeSizes
      [("0", { volumeType := "l_ssd", size := some 5 })]
      { volumesConstraint := { minSize := 5, maxSize := 10 } } "DEV1-S" = none := by
  have h := validateLocalVolumeSizes_iff
    [("0", { volumeType := "l_ssd", size := some 5 })]
    { volumesConstraint := { minSize := 5, maxSize := 10 } } "DEV1-S" (by decide)
  exact h.1.mpr (by decide)

/-- Helper: `Nat.toDigitsCore` in base 10 on a positive input produces a
leading digit between 1 and 9. -/
theorem toDigitsCore_head :
    ∀ (fuel n : Nat) (ds : List Char), 1 ≤ n → n < 10 ^ fuel →
      ∃ d, 1 ≤ d ∧ d ≤ 9 ∧
        (Nat.toDigitsCore 10 fuel n ds).head? = some (Nat.digitChar d) := by
  intro fuel
  induction fuel with
  | zero =>
    intro n ds h1 h2
    simp at h2
    omega
  | succ fuel ih =>
    intro n ds h1 h2
    by_cases hdiv : n / 10 = 0
    · refine ⟨n % 10, by omega, by omega, ?_⟩
      simp [Nat.toDigitsCore, hdiv]
    · have h1a : 1 ≤ n / 10 := by omega
      have h2a : n / 10 < 10 ^ fuel := by
        rw [Nat.div_lt_iff_lt_mul (by norm_num : 0 < 10)]
        calc n < 10 ^ (fuel + 1) := h2
        _ = 10 ^ fuel * 10 := by ring
      obtain ⟨d, hd1, hd9, hh⟩ := ih (n / 10) (Nat.digitChar (n % 10) :: ds) h1a h2a
      refine ⟨d, hd1, hd9, ?_⟩
      rw [show Nat.toDigitsCore 10 (fuel + 1) n ds =
          Nat.toDigitsCore 10 fuel (n / 10) (Nat.digitChar (n % 10) :: ds) from by
        simp [Nat.toDigitsCore, hdiv]]
      exact hh

/-- Helper: the decimal representation of a positive number is not `"0"`. -/
theorem repr_ne_zero_of_pos (n : Nat) (h : 1 ≤ n) : Nat.repr n ≠ "0" := by
  intro hrepr
  have hdata : Nat.toDigits 10 n = [Char.ofNat 48] := by
    have h2 := congrArg String.data hrepr
    simpa [Nat.repr, List.asString] using h2
  have hfuel : n < 10 ^ (n + 1) := by
    calc n < 10 ^ n := Nat.lt_pow_self (by norm_num) n
    _ ≤ 10 ^ (n + 1) := Nat.pow_le_pow_right (by norm_num) (Nat.le_succ n)
  obtain ⟨d, hd1, hd9, hh⟩ := toDigitsCore_head (n + 1) n [] h hfuel
  rw [show Nat.toDigitsCore 10 (n + 1) n [] = Nat.toDigits 10 n from rfl, hdata] at hh
  have hzero : Nat.digitChar d = Char.ofNat 48 := by
    simpa using hh.symm
  interval_cases d <;> exact absurd hzero (by decide)

/-- Claim C10: `expandInstanceImageExtraVolumesTemplates` returns the empty
map for no snapshots, its keys are exactly the decimal strings `"1"` through
`"n"` (never `"0"`), and the template at key `i+1` copies the i-th
ID, base-volume name, size, and volume type of the i-th snapshot. -/
theorem expandInstanceImageExtraVolumesTemplates_spec :
    ∀ snapshots : List GetSnapshotResponse,
      expandInstanceImageExtraVolumesTemplates [] = [] ∧
      mapKeys (expandInstanceImageExtraVolumesTemplates snapshots) =
        (List.range snapshots.length).map (fun i => Nat.repr (i + 1)) ∧
      "0" ∉ mapKeys (expandInstanceImageExtraVolumesTemplates snapshots) ∧
      (expandInstanceImageExtraVolumesTemplates snapshots).length =
        snapshots.length ∧
      (∀ i, (expandInstanceImageExtraVolumesTemplates snapshots)[i]? =
        (snapshots[i]?).map (fun s =>
          (Nat.repr (i + 1),
           ({ id := s.snapshot.id, name := s.snapshot.baseVolumeName,
              size := s.snapshot.size,
              volumeType := s.snapshot.volumeType } : VolumeTemplate)))) := by
  intro snapshots
  refine ⟨rfl, ?_, ?_, ?_, ?_⟩
  · simp only [expandInstanceImageExtraVolumesTemplates, mapKeys, List.map_map]
    rw [← List.enum_map_fst snapshots, List.map_map]
    rfl
  · intro hmem
    simp only [mapKeys, expandInstanceImageExtraVolumesTemplates, List.map_map,
      List.mem_map, Function.comp] at hmem
    obtain ⟨p, _, hp⟩ := hmem
    exact repr_ne_zero_of_pos (p.1 + 1) (by omega) hp
  · simp [expandInstanceImageExtraVolumesTemplates]
  · intro i
    simp only [expandInstanceImageExtraVolumesTemplates, List.getElem?_map,
      List.getElem?_enum]
    cases h : snapshots[i]? <;> simp

end Scaleway
